import Mathlib

/-!
# Verification of `whisper_marko.py`

Shallow embedding of the program in `src/whisper_marko.py`: a command-line
wrapper that loads a speech-recognition model, transcribes one audio file
under a wall-clock deadline, and writes the transcript text to a file.

Modelling decisions (each traceable to the source):

* The external `whisper` library and the loaded model are opaque
  collaborators; they are parameters of the embedding (`Whisper`, `Model`).
  One call to the engine transcription operation is described by a
  `TranscribeOp`: it occupies a worker thread for `duration` time units and
  then either returns a result mapping or raises an exception (a message).
* Wall-clock time is a discrete counter `World.now` (seconds).
* The file system is an association list from path to content
  (`World.files`); the set of pre-existing regular files consulted by
  `Path(p).is_file()` is `World.isFile`.
* `logging` is a list of `(timestamp, level, message)` entries appended in
  order (`World.log`).  Float formatting (`:.2f`) is rendered as `toString`
  of the natural-number duration.
* Python exceptions are `Except Err`; a bare `raise` re-raises the same
  value.  `str(e)` is `errMsg`.
* `with ThreadPoolExecutor() as executor:` — per Python semantics,
  `Executor.__exit__` calls `shutdown(wait := True)`, which joins the
  worker threads.  Hence when `future.result(timeout)` raises
  `TimeoutError` at `start + timeout`, leaving the `with` block still
  blocks until the submitted `model.transcribe` call finishes at
  `start + duration`; the worker cannot be interrupted.  The embedding of
  `transcribe_audio` therefore advances the clock to `start + duration` on
  every path, and the timeout log line (which sits in the `except` clause,
  after the `with` block) carries that later timestamp.
* Externally observable calls are recorded in `World.trace` so that
  ordering properties of the driver can be stated.
-/

namespace WhisperMarko

/-- Logging levels used by the program (`logging.info` / `logging.error`). -/
inductive Level where
  | info
  | error
deriving DecidableEq

/-- One log line: `<timestamp> - <LEVEL> - <message>`. -/
structure LogEntry where
  time : Nat
  level : Level
  msg : String
deriving DecidableEq

/-- Python exceptions that the program can observe.
`timeoutErr` is `concurrent.futures.TimeoutError` (raised with no
arguments), `keyErr k` is `KeyError(k)`, and `exc m` is any other
exception whose `str` is `m` (raised by a collaborator). -/
inductive Err where
  | timeoutErr
  | keyErr (key : String)
  | exc (msg : String)
deriving DecidableEq

/-- Rendering `str(e)` for the exceptions above: `str(TimeoutError())` is the empty
string, `str(KeyError('text'))` is `"'text'"`, and a collaborator
exception carries its own message. -/
def errMsg : Err → String
  | Err.timeoutErr => ""
  | Err.keyErr k => "'" ++ k ++ "'"
  | Err.exc m => m

/-- Externally observable calls made by the program, recorded in order. -/
inductive Event where
  | loadCall (model_name : String)
  | promptInput
  | fileCheck (path : String)
  | transcribeCall (path : String)
  | saveCall (path : String)
deriving DecidableEq

/-- The world the program acts on: the clock, the set of pre-existing
regular files, the writable file store (path to content), the log stream,
and the trace of observable calls. -/
structure World where
  now : Nat
  isFile : List String
  files : List (String × String)
  log : List LogEntry
  trace : List Event
deriving DecidableEq

/-- Append a log line at the current time (`logging.info` / `.error`). -/
def logMsg (lvl : Level) (m : String) (w : World) : World :=
  { w with log := w.log ++ [⟨w.now, lvl, m⟩] }

/-- Record an observable call in the trace. -/
def recEvent (e : Event) (w : World) : World :=
  { w with trace := w.trace ++ [e] }

/-- Lookup in an association list (Python `dict` access / reading a file
from the store). -/
def lookupKV : List (String × String) → String → Option String
  | [], _ => none
  | (q, c) :: rest, p => if q = p then some c else lookupKV rest p

/-- Update-or-insert in an association list (writing a file). -/
def setKV : List (String × String) → String → String → List (String × String)
  | [], p, c => [(p, c)]
  | (q, d) :: rest, p, c =>
      if q = p then (p, c) :: rest else (q, d) :: setKV rest p c

/-- One call to the engine transcription operation, as submitted to the
worker thread: it runs for `duration` seconds and then either returns the
result mapping or raises an exception with the given message. -/
structure TranscribeOp where
  duration : Nat
  outcome : Except String (List (String × String))

/-- Opaque engine instance: `model.transcribe(audio_path)` behaves as
`transcribe audio_path`. -/
structure Model where
  transcribe : String → TranscribeOp

/-- The external `whisper` library: `whisper.load_model(name)` either
returns an engine instance or raises, and takes `loadDuration name`
seconds of wall-clock time. -/
structure Whisper where
  load_model : String → Except String Model
  loadDuration : String → Nat

/-- Embedding of `load_model` (src/whisper_marko.py lines 14-30). -/
def load_model (wh : Whisper) (model_name : String) (w : World) :
    Except Err Model × World :=
  let w := recEvent (Event.loadCall model_name) w
  let start_time := w.now
  let w := { w with now := w.now + wh.loadDuration model_name }
  match wh.load_model model_name with
  | Except.ok model =>
      let w := logMsg Level.info
        ("Model '" ++ model_name ++ "' loaded successfully.") w
      let end_time := w.now
      let w := logMsg Level.info
        ("Time taken to load model: " ++ toString (end_time - start_time)
          ++ " seconds") w
      (Except.ok model, w)
  | Except.error e =>
      let w := logMsg Level.error
        ("Failed to load the model '" ++ model_name ++ "'. Error: " ++ e) w
      (Except.error (Err.exc e), w)

/-- Embedding of `transcribe_audio` (src/whisper_marko.py lines 33-56).
The `timeout` parameter is written last so that its default value (300,
as in the source) can be used by callers; the source order of the
parameters is `(model, audio_path, timeout)`.

`future.result(timeout)` returns the worker outcome if the worker
finishes within `timeout` seconds, and raises `TimeoutError` otherwise;
in the latter case leaving the `with ThreadPoolExecutor()` block joins
the worker, so control reaches the `except TimeoutError` clause only at
`start_time + duration`. -/
def transcribe_audio (model : Model) (audio_path : String) (w : World)
    (timeout : Nat := 300) : Except Err (List (String × String)) × World :=
  let w := recEvent (Event.transcribeCall audio_path) w
  let start_time := w.now
  let op := model.transcribe audio_path
  if timeout < op.duration then
    let w := { w with now := start_time + op.duration }
    let w := logMsg Level.error
      ("Transcription timed out after " ++ toString timeout ++ " seconds.") w
    (Except.error Err.timeoutErr, w)
  else
    let w := { w with now := start_time + op.duration }
    match op.outcome with
    | Except.ok result =>
        let w := logMsg Level.info "Transcription completed successfully." w
        let end_time := w.now
        let w := logMsg Level.info
          ("Time taken to transcribe audio: "
            ++ toString (end_time - start_time) ++ " seconds") w
        (Except.ok result, w)
    | Except.error e =>
        let w := logMsg Level.error ("Transcription failed. Error: " ++ e) w
        (Except.error (Err.exc e), w)

/-- Embedding of `save_transcription` (src/whisper_marko.py lines 59-72).
`with open(output_file, 'w')` creates or truncates the file before the
expression `result['text']` is evaluated, so a missing `"text"` key
raises `KeyError('text')` with the file already left empty. -/
def save_transcription (result : List (String × String))
    (output_file : String) (w : World) : Except Err Unit × World :=
  let w := recEvent (Event.saveCall output_file) w
  let w := { w with files := setKV w.files output_file "" }
  match lookupKV result "text" with
  | some text =>
      let w := { w with files := setKV w.files output_file text }
      let w := logMsg Level.info
        ("Transcription saved to '" ++ output_file ++ "'.") w
      (Except.ok (), w)
  | none =>
      let w := logMsg Level.error
        ("Failed to save transcription to '" ++ output_file
          ++ "'. Error: 'text'") w
      (Except.error (Err.keyErr "text"), w)

/-- The body of `main`'s `try` block (src/whisper_marko.py lines 79-91):
load the fixed model, prompt for the audio path (`stdinLine` is the line
read from standard input), check `Path(audio_path).is_file()`, then
transcribe (default timeout) and save to the fixed output file.  A missing
audio file is a normal return (after an error log), not an exception. -/
def main_body (wh : Whisper) (stdinLine : String) (w : World) :
    Except Err Unit × World :=
  let model_name := "medium"
  match load_model wh model_name w with
  | (Except.error e, w) => (Except.error e, w)
  | (Except.ok model, w) =>
    let w := recEvent Event.promptInput w
    let audio_path := stdinLine
    let w := recEvent (Event.fileCheck audio_path) w
    if audio_path ∈ w.isFile then
      match transcribe_audio model audio_path w with
      | (Except.error e, w) => (Except.error e, w)
      | (Except.ok result, w) =>
        let output_file := "outputfile.txt"
        match save_transcription result output_file w with
        | (Except.error e, w) => (Except.error e, w)
        | (Except.ok _, w) => (Except.ok (), w)
    else
      (Except.ok (),
        logMsg Level.error
          ("Audio file '" ++ audio_path ++ "' does not exist.") w)

/-- Embedding of `main` (src/whisper_marko.py lines 75-94): the `try`
body wrapped in `except Exception as e: logging.error(f"An error
occurred: {e}")`.  `main` always returns a `World` — no exception
escapes. -/
def main (wh : Whisper) (stdinLine : String) (w : World) : World :=
  match main_body wh stdinLine w with
  | (Except.ok _, w) => w
  | (Except.error e, w) =>
      logMsg Level.error ("An error occurred: " ++ errMsg e) w

/-- Concrete collaborator for closed test runs: loading always succeeds
after 2 seconds, transcription takes 5 seconds and yields a mapping whose
text is "hello world". -/
def whGood : Whisper :=
  ⟨fun _ => Except.ok ⟨fun _ => ⟨5, Except.ok [("text", "hello world")]⟩⟩,
   fun _ => 2⟩

/-- Concrete collaborator whose load raises with message "boom". -/
def whBad : Whisper :=
  ⟨fun _ => Except.error "boom", fun _ => 2⟩

/-- Concrete initial world: time 0, one existing audio file `a.wav`,
empty file store, empty log and trace. -/
def w0 : World := ⟨0, ["a.wav"], [], [], []⟩

/-- Index of the first occurrence of an event in a trace. -/
def firstIdx (e : Event) : List Event → Option Nat
  | [] => none
  | x :: xs => if x = e then some 0 else (firstIdx e xs).map (· + 1)

/-- Predicate `precedesB a b tr`: both events occur in `tr` and the first
occurrence of `a` is strictly before the first occurrence of `b`. -/
def precedesB (a b : Event) (tr : List Event) : Bool :=
  match firstIdx a tr, firstIdx b tr with
  | some i, some j => decide (i < j)
  | _, _ => false

/-! ## Association-list lemmas -/

theorem lookupKV_setKV_same (fs : List (String × String)) (p c : String) :
    lookupKV (setKV fs p c) p = some c := by
  induction fs with
  | nil => simp [setKV, lookupKV]
  | cons kv rest ih =>
    obtain ⟨q, d⟩ := kv
    by_cases h : q = p
    · simp [setKV, lookupKV, h]
    · simp [setKV, lookupKV, h, ih]

theorem lookupKV_setKV_other (fs : List (String × String)) (p c r : String)
    (h : r ≠ p) : lookupKV (setKV fs p c) r = lookupKV fs r := by
  induction fs with
  | nil => simp [setKV, lookupKV, Ne.symm h]
  | cons kv rest ih =>
    obtain ⟨q, d⟩ := kv
    by_cases hq : q = p
    · subst hq
      simp [setKV, lookupKV, Ne.symm h]
    · simp [setKV, lookupKV, hq, ih]

/-! ## Shared run lemma for the driver's success path -/

/-- On the full success path (load succeeds, the audio path is an
existing file, the engine finishes within the deadline with a result
carrying a "text" field), `main` writes that text to `outputfile.txt`,
leaves the set of existing audio files unchanged, and performs exactly
the calls Loader, prompt, check, Runner, Writer in that order. -/
theorem main_success_run (wh : Whisper) (s : String) (w : World)
    (m : Model) (r : List (String × String)) (text : String)
    (hload : wh.load_model "medium" = Except.ok m)
    (hdur : (m.transcribe s).duration ≤ 300)
    (hout : (m.transcribe s).outcome = Except.ok r)
    (htext : lookupKV r "text" = some text)
    (hmem : s ∈ w.isFile) :
    lookupKV (main wh s w).files "outputfile.txt" = some text ∧
    (main wh s w).isFile = w.isFile ∧
    (main wh s w).trace = w.trace ++
      [Event.loadCall "medium", Event.promptInput, Event.fileCheck s,
       Event.transcribeCall s, Event.saveCall "outputfile.txt"] := by
  simp [main, main_body, load_model, transcribe_audio, save_transcription,
        recEvent, logMsg, hload, hout, htext, hmem, Nat.not_lt.mpr hdur,
        lookupKV_setKV_same]

/-! ## Claims -/

/-- C1: the claim says that when the engine operation exceeds the
timeout, `transcribe_audio` raises a Timeout failure and returns control
within a bounded margin of the configured timeout.  Evaluating the code
at an engine operation of duration 7200 s with the default 300 s timeout:
the Timeout failure is indeed raised and logged, but control returns only
at clock 7200 — when the worker finishes, because leaving the
`with ThreadPoolExecutor()` block joins the worker — not within any
bounded margin of the 300 s deadline. -/
theorem transcribe_timeout_returns_at_worker_end :
    (transcribe_audio ⟨fun _ => ⟨7200, Except.ok [("text", "late")]⟩⟩
        "a.wav" w0).1 = Except.error Err.timeoutErr ∧
    (transcribe_audio ⟨fun _ => ⟨7200, Except.ok [("text", "late")]⟩⟩
        "a.wav" w0).2.now = 7200 ∧
    (transcribe_audio ⟨fun _ => ⟨7200, Except.ok [("text", "late")]⟩⟩
        "a.wav" w0).2.log =
      [⟨7200, Level.error, "Transcription timed out after 300 seconds."⟩] :=
  ⟨rfl, rfl, rfl⟩

/-- C2 counterexample: in a concrete full run of `main`, the stdin prompt
does not precede the Loader call; the Loader call comes first.  This
refutes the claim that the audio path is obtained and validated before
the Model Loader is invoked. -/
theorem main_prompt_not_before_loader_cex :
    precedesB Event.promptInput (Event.loadCall "medium")
        (main whGood "a.wav" w0).trace = false ∧
    precedesB (Event.loadCall "medium") Event.promptInput
        (main whGood "a.wav" w0).trace = true :=
  ⟨rfl, rfl⟩

/-- C2 amended: in the Driver, the Model Loader is invoked first; only
afterwards is the audio path obtained from standard input and validated;
the Runner starts only after the validation, and the Writer only after
the Runner. -/
theorem main_loader_then_prompt_then_run (wh : Whisper) (s : String)
    (w : World) (m : Model) (r : List (String × String)) (text : String)
    (hload : wh.load_model "medium" = Except.ok m)
    (hdur : (m.transcribe s).duration ≤ 300)
    (hout : (m.transcribe s).outcome = Except.ok r)
    (htext : lookupKV r "text" = some text)
    (hmem : s ∈ w.isFile)
    (htr : w.trace = []) :
    (main wh s w).trace =
      [Event.loadCall "medium", Event.promptInput, Event.fileCheck s,
       Event.transcribeCall s, Event.saveCall "outputfile.txt"] ∧
    precedesB (Event.loadCall "medium") Event.promptInput
        (main wh s w).trace = true ∧
    precedesB Event.promptInput (Event.fileCheck s)
        (main wh s w).trace = true ∧
    precedesB (Event.fileCheck s) (Event.transcribeCall s)
        (main wh s w).trace = true ∧
    precedesB (Event.transcribeCall s) (Event.saveCall "outputfile.txt")
        (main wh s w).trace = true := by
  have h :=
    (main_success_run wh s w m r text hload hdur hout htext hmem).2.2
  rw [htr] at h
  simp only [List.nil_append] at h
  refine ⟨h, ?_, ?_, ?_, ?_⟩ <;> rw [h] <;> simp [precedesB, firstIdx]

/-- C2 amended witness: the amended ordering at a concrete run. -/
theorem main_loader_then_prompt_then_run_witness :
    (main whGood "a.wav" w0).trace =
      [Event.loadCall "medium", Event.promptInput, Event.fileCheck "a.wav",
       Event.transcribeCall "a.wav", Event.saveCall "outputfile.txt"] ∧
    precedesB (Event.loadCall "medium") Event.promptInput
        (main whGood "a.wav" w0).trace = true ∧
    precedesB Event.promptInput (Event.fileCheck "a.wav")
        (main whGood "a.wav" w0).trace = true ∧
    precedesB (Event.fileCheck "a.wav") (Event.transcribeCall "a.wav")
        (main whGood "a.wav" w0).trace = true ∧
    precedesB (Event.transcribeCall "a.wav")
        (Event.saveCall "outputfile.txt")
        (main whGood "a.wav" w0).trace = true :=
  main_loader_then_prompt_then_run whGood "a.wav" w0
    ⟨fun _ => ⟨5, Except.ok [("text", "hello world")]⟩⟩
    [("text", "hello world")] "hello world"
    rfl (by decide) rfl rfl (by decide) rfl

/-- C3: for every result mapping with a "text" field and every output
path, `save_transcription` succeeds, the file at that path afterwards
holds exactly the value of the "text" field — whatever its previous
content — and no other file changes. -/
theorem save_transcription_writes_exact_text
    (result : List (String × String)) (output_file : String) (w : World)
    (text : String) (h : lookupKV result "text" = some text) :
    (save_transcription result output_file w).1 = Except.ok () ∧
    lookupKV (save_transcription result output_file w).2.files output_file
      = some text ∧
    ∀ q, q ≠ output_file →
      lookupKV (save_transcription result output_file w).2.files q
        = lookupKV w.files q := by
  refine ⟨?_, ?_, ?_⟩
  · simp [save_transcription, h, recEvent, logMsg]
  · simp [save_transcription, h, recEvent, logMsg, lookupKV_setKV_same]
  · intro q hq
    simp only [save_transcription, h, recEvent, logMsg]
    rw [lookupKV_setKV_other _ _ _ _ hq, lookupKV_setKV_other _ _ _ _ hq]

/-- C3 witness: saving a mapping with text "hi" over a file holding
"old" leaves exactly "hi". -/
theorem save_transcription_writes_exact_text_witness :
    lookupKV [("text", "hi")] "text" = some "hi" ∧
    ((save_transcription [("text", "hi")] "outputfile.txt"
        ⟨0, [], [("outputfile.txt", "old")], [], []⟩).1 = Except.ok () ∧
     lookupKV (save_transcription [("text", "hi")] "outputfile.txt"
        ⟨0, [], [("outputfile.txt", "old")], [], []⟩).2.files
        "outputfile.txt" = some "hi" ∧
     ∀ q, q ≠ "outputfile.txt" →
       lookupKV (save_transcription [("text", "hi")] "outputfile.txt"
          ⟨0, [], [("outputfile.txt", "old")], [], []⟩).2.files q
         = lookupKV [("outputfile.txt", "old")] q) :=
  ⟨rfl, save_transcription_writes_exact_text [("text", "hi")]
    "outputfile.txt" ⟨0, [], [("outputfile.txt", "old")], [], []⟩ "hi" rfl⟩

/-- C4: when the operator-supplied path is not an existing file (and the
load itself succeeded, so the check is reached), the Driver logs the
missing-file condition and returns normally, and the file store is
untouched — in particular `outputfile.txt` is neither created nor
modified.  The log afterwards is exactly the two load lines followed by
the missing-file error line. -/
theorem main_missing_file_no_output (wh : Whisper) (stdinLine : String)
    (w : World) (m : Model)
    (hload : wh.load_model "medium" = Except.ok m)
    (hmem : stdinLine ∉ w.isFile) :
    (main wh stdinLine w).files = w.files ∧
    (main wh stdinLine w).log = w.log ++
      [⟨w.now + wh.loadDuration "medium", Level.info,
          "Model 'medium' loaded successfully."⟩,
       ⟨w.now + wh.loadDuration "medium", Level.info,
          "Time taken to load model: "
            ++ toString (wh.loadDuration "medium") ++ " seconds"⟩,
       ⟨w.now + wh.loadDuration "medium", Level.error,
          "Audio file '" ++ stdinLine ++ "' does not exist."⟩] := by
  simp [main, main_body, load_model, hload, hmem, recEvent, logMsg,
        Nat.add_sub_cancel_left]

/-- C4 witness: a run on a missing path leaves the pre-existing
`outputfile.txt` untouched and logs the missing-file error. -/
theorem main_missing_file_no_output_witness :
    whGood.load_model "medium" = Except.ok
      ⟨fun _ => ⟨5, Except.ok [("text", "hello world")]⟩⟩ ∧
    "missing.wav" ∉ (⟨0, ["a.wav"], [("outputfile.txt", "old")], [], []⟩ :
        World).isFile ∧
    ((main whGood "missing.wav"
        ⟨0, ["a.wav"], [("outputfile.txt", "old")], [], []⟩).files
      = [("outputfile.txt", "old")] ∧
     (main whGood "missing.wav"
        ⟨0, ["a.wav"], [("outputfile.txt", "old")], [], []⟩).log = [] ++
      [⟨0 + whGood.loadDuration "medium", Level.info,
          "Model 'medium' loaded successfully."⟩,
       ⟨0 + whGood.loadDuration "medium", Level.info,
          "Time taken to load model: "
            ++ toString (whGood.loadDuration "medium") ++ " seconds"⟩,
       ⟨0 + whGood.loadDuration "medium", Level.error,
          "Audio file '" ++ "missing.wav" ++ "' does not exist."⟩]) :=
  ⟨rfl, by decide,
   main_missing_file_no_output whGood "missing.wav"
     ⟨0, ["a.wav"], [("outputfile.txt", "old")], [], []⟩
     ⟨fun _ => ⟨5, Except.ok [("text", "hello world")]⟩⟩ rfl (by decide)⟩

/-- C5: whenever the body of the Driver's try block fails with any
exception, `main` catches it at the top level and logs "An error
occurred: " followed by the exception's message; `main` always returns a
`World` (its type has no error component), so no failure propagates out
of it. -/
theorem main_catches_all_failures (wh : Whisper) (stdinLine : String)
    (w : World) (e : Err) (w1 : World)
    (h : main_body wh stdinLine w = (Except.error e, w1)) :
    main wh stdinLine w =
      logMsg Level.error ("An error occurred: " ++ errMsg e) w1 ∧
    (main wh stdinLine w).log = w1.log ++
      [⟨w1.now, Level.error, "An error occurred: " ++ errMsg e⟩] := by
  simp [main, h, logMsg]

/-- C5 witness: a failing load is caught by `main` and converted into
the top-level error log line. -/
theorem main_catches_all_failures_witness :
    main_body whBad "a.wav" w0 =
      (Except.error (Err.exc "boom"),
       ⟨2, ["a.wav"], [],
        [⟨2, Level.error, "Failed to load the model 'medium'. Error: boom"⟩],
        [Event.loadCall "medium"]⟩) ∧
    (main whBad "a.wav" w0 =
      logMsg Level.error ("An error occurred: " ++ errMsg (Err.exc "boom"))
        ⟨2, ["a.wav"], [],
         [⟨2, Level.error,
            "Failed to load the model 'medium'. Error: boom"⟩],
         [Event.loadCall "medium"]⟩ ∧
     (main whBad "a.wav" w0).log =
       [⟨2, Level.error, "Failed to load the model 'medium'. Error: boom"⟩]
       ++ [⟨2, Level.error, "An error occurred: " ++ errMsg (Err.exc "boom")⟩]) :=
  ⟨rfl, main_catches_all_failures whBad "a.wav" w0 (Err.exc "boom")
    ⟨2, ["a.wav"], [],
     [⟨2, Level.error, "Failed to load the model 'medium'. Error: boom"⟩],
     [Event.loadCall "medium"]⟩ rfl⟩

/-- C6: each of the three components, on each failure it can observe,
appends an ERROR log line naming its operand and the underlying message
and re-raises the failure to its caller — none of them swallows an
error.  The four cases are: load failure; transcription timeout;
transcription engine error; missing "text" key in the result to save. -/
theorem components_log_then_reraise :
    (∀ (wh : Whisper) (name : String) (w : World) (msg : String),
        wh.load_model name = Except.error msg →
        (load_model wh name w).1 = Except.error (Err.exc msg) ∧
        (load_model wh name w).2.log = w.log ++
          [⟨w.now + wh.loadDuration name, Level.error,
            "Failed to load the model '" ++ name ++ "'. Error: " ++ msg⟩]) ∧
    (∀ (m : Model) (p : String) (w : World) (t : Nat),
        t < (m.transcribe p).duration →
        (transcribe_audio m p w t).1 = Except.error Err.timeoutErr ∧
        (transcribe_audio m p w t).2.log = w.log ++
          [⟨w.now + (m.transcribe p).duration, Level.error,
            "Transcription timed out after " ++ toString t ++ " seconds."⟩]) ∧
    (∀ (m : Model) (p : String) (w : World) (t : Nat) (msg : String),
        (m.transcribe p).duration ≤ t →
        (m.transcribe p).outcome = Except.error msg →
        (transcribe_audio m p w t).1 = Except.error (Err.exc msg) ∧
        (transcribe_audio m p w t).2.log = w.log ++
          [⟨w.now + (m.transcribe p).duration, Level.error,
            "Transcription failed. Error: " ++ msg⟩]) ∧
    (∀ (r : List (String × String)) (f : String) (w : World),
        lookupKV r "text" = none →
        (save_transcription r f w).1 = Except.error (Err.keyErr "text") ∧
        (save_transcription r f w).2.log = w.log ++
          [⟨w.now, Level.error,
            "Failed to save transcription to '" ++ f
              ++ "'. Error: 'text'"⟩]) := by
  refine ⟨?_, ?_, ?_, ?_⟩
  · intro wh name w msg h
    simp [load_model, h, recEvent, logMsg]
  · intro m p w t h
    simp [transcribe_audio, h, recEvent, logMsg]
  · intro m p w t msg hle h
    simp [transcribe_audio, h, Nat.not_lt.mpr hle, recEvent, logMsg]
  · intro r f w h
    simp [save_transcription, h, recEvent, logMsg]

/-- C6 witness: each of the four failure cases instantiated at a
concrete input. -/
theorem components_log_then_reraise_witness :
    ((load_model whBad "medium" w0).1 = Except.error (Err.exc "boom") ∧
     (load_model whBad "medium" w0).2.log = [] ++
       [⟨0 + whBad.loadDuration "medium", Level.error,
         "Failed to load the model '" ++ "medium" ++ "'. Error: "
           ++ "boom"⟩]) ∧
    ((transcribe_audio ⟨fun _ => ⟨10, Except.ok []⟩⟩ "a.wav" w0 3).1
        = Except.error Err.timeoutErr) ∧
    ((transcribe_audio ⟨fun _ => ⟨4, Except.error "bad audio"⟩⟩ "a.wav"
        w0 300).1 = Except.error (Err.exc "bad audio")) ∧
    ((save_transcription [("lang", "en")] "outputfile.txt" w0).1
        = Except.error (Err.keyErr "text")) :=
  ⟨components_log_then_reraise.1 whBad "medium" w0 "boom" rfl,
   (components_log_then_reraise.2.1 ⟨fun _ => ⟨10, Except.ok []⟩⟩ "a.wav"
      w0 3 (by decide)).1,
   (components_log_then_reraise.2.2.1 ⟨fun _ => ⟨4, Except.error "bad audio"⟩⟩
      "a.wav" w0 300 "bad audio" (by decide) rfl).1,
   (components_log_then_reraise.2.2.2 [("lang", "en")] "outputfile.txt"
      w0 rfl).1⟩

/-- C7: `transcribe_audio` called without an explicit timeout uses 300
seconds, and on success (the engine operation finishes within the
timeout and returns a result mapping) it returns exactly that mapping,
unchanged. -/
theorem transcribe_default_timeout_and_identity (m : Model) (p : String)
    (w : World) (r : List (String × String))
    (hdur : (m.transcribe p).duration ≤ 300)
    (hout : (m.transcribe p).outcome = Except.ok r) :
    transcribe_audio m p w = transcribe_audio m p w 300 ∧
    (transcribe_audio m p w).1 = Except.ok r := by
  refine ⟨rfl, ?_⟩
  simp [transcribe_audio, hout, Nat.not_lt.mpr hdur, recEvent, logMsg]

/-- C7 witness: the default-timeout call at a concrete engine returns
the engine's mapping unchanged. -/
theorem transcribe_default_timeout_and_identity_witness :
    ((⟨fun _ => ⟨5, Except.ok [("text", "hello world")]⟩⟩ : Model).transcribe
        "a.wav").duration ≤ 300 ∧
    (transcribe_audio ⟨fun _ => ⟨5, Except.ok [("text", "hello world")]⟩⟩
        "a.wav" w0 =
      transcribe_audio ⟨fun _ => ⟨5, Except.ok [("text", "hello world")]⟩⟩
        "a.wav" w0 300 ∧
     (transcribe_audio ⟨fun _ => ⟨5, Except.ok [("text", "hello world")]⟩⟩
        "a.wav" w0).1 = Except.ok [("text", "hello world")]) :=
  ⟨by decide,
   transcribe_default_timeout_and_identity
     ⟨fun _ => ⟨5, Except.ok [("text", "hello world")]⟩⟩ "a.wav" w0
     [("text", "hello world")] (by decide) rfl⟩

/-- C8: round-trip — for every result mapping with a "text" field,
saving it with `save_transcription` and then reading the output file
back from the store yields exactly the value of the "text" field. -/
theorem save_then_read_roundtrip (result : List (String × String))
    (output_file : String) (w : World) (text : String)
    (h : lookupKV result "text" = some text) :
    lookupKV (save_transcription result output_file w).2.files output_file
      = some text := by
  simp [save_transcription, h, recEvent, logMsg, lookupKV_setKV_same]

/-- C8 witness: the round-trip at a concrete mapping and store. -/
theorem save_then_read_roundtrip_witness :
    lookupKV [("text", "hello world"), ("lang", "en")] "text"
      = some "hello world" ∧
    lookupKV (save_transcription [("text", "hello world"), ("lang", "en")]
        "outputfile.txt" w0).2.files "outputfile.txt" = some "hello world" :=
  ⟨rfl, save_then_read_roundtrip [("text", "hello world"), ("lang", "en")]
    "outputfile.txt" w0 "hello world" rfl⟩

/-- C9: idempotence — with a deterministic engine (the collaborators are
fixed functions), running `main` twice on the same stdin line leaves
`outputfile.txt` containing the same text after each run; the second run
overwrites rather than appends. -/
theorem main_twice_same_output (wh : Whisper) (s : String) (w : World)
    (m : Model) (r : List (String × String)) (text : String)
    (hload : wh.load_model "medium" = Except.ok m)
    (hdur : (m.transcribe s).duration ≤ 300)
    (hout : (m.transcribe s).outcome = Except.ok r)
    (htext : lookupKV r "text" = some text)
    (hmem : s ∈ w.isFile) :
    lookupKV (main wh s w).files "outputfile.txt" = some text ∧
    lookupKV (main wh s (main wh s w)).files "outputfile.txt"
      = some text := by
  obtain ⟨h1, hfile, -⟩ :=
    main_success_run wh s w m r text hload hdur hout htext hmem
  refine ⟨h1, ?_⟩
  have hmem2 : s ∈ (main wh s w).isFile := by
    rw [hfile]; exact hmem
  exact (main_success_run wh s (main wh s w) m r text hload hdur hout
    htext hmem2).1

/-- C9 witness: two consecutive runs at a concrete collaborator both
leave `outputfile.txt` containing "hello world". -/
theorem main_twice_same_output_witness :
    lookupKV (main whGood "a.wav" w0).files "outputfile.txt"
      = some "hello world" ∧
    lookupKV (main whGood "a.wav" (main whGood "a.wav" w0)).files
      "outputfile.txt" = some "hello world" :=
  main_twice_same_output whGood "a.wav" w0
    ⟨fun _ => ⟨5, Except.ok [("text", "hello world")]⟩⟩
    [("text", "hello world")] "hello world"
    rfl (by decide) rfl rfl (by decide)

/-- C10: for every result mapping lacking a "text" key,
`save_transcription` raises `KeyError('text')`, and because
`open(output_file, 'w')` has already created or truncated the file
before the key lookup, the output file is left present with empty
content rather than untouched. -/
theorem save_missing_text_truncates (result : List (String × String))
    (output_file : String) (w : World)
    (h : lookupKV result "text" = none) :
    (save_transcription result output_file w).1
      = Except.error (Err.keyErr "text") ∧
    lookupKV (save_transcription result output_file w).2.files output_file
      = some "" := by
  simp [save_transcription, h, recEvent, logMsg, lookupKV_setKV_same]

/-- C10 witness: saving a mapping without "text" over a file holding
"old" raises the key error and leaves the file truncated to empty. -/
theorem save_missing_text_truncates_witness :
    lookupKV [("lang", "en")] "text" = none ∧
    ((save_transcription [("lang", "en")] "outputfile.txt"
        ⟨0, [], [("outputfile.txt", "old")], [], []⟩).1
      = Except.error (Err.keyErr "text") ∧
     lookupKV (save_transcription [("lang", "en")] "outputfile.txt"
        ⟨0, [], [("outputfile.txt", "old")], [], []⟩).2.files
       "outputfile.txt" = some "") :=
  ⟨rfl, save_missing_text_truncates [("lang", "en")] "outputfile.txt"
    ⟨0, [], [("outputfile.txt", "old")], [], []⟩ rfl⟩

end WhisperMarko
